import Mathlib

set_option maxRecDepth 8000

/-
Verification development for the GeminiFlow multi-agent DevSecOps
orchestrator (`multi_tool_agent/`).  The deployment-workflow core is embedded
shallowly: every external platform call (source lookup, build, vulnerability
scan, Gemini summarization, deploy, metrics/log snapshots, revision listing,
traffic update) is an oracle supplied through an `Adapters` record, while all
control flow, report formatting and string-based decision logic of
`agent.py`, `mda_agent.py`, `secops_agent.py` and `rollback_agent.py` is
reproduced definitionally.  Python dictionaries with optional keys are
modelled as structures of `Option` fields; Python string operations
(`in`, `.upper()`, `.strip()`, `.split(sep)`, `"sep".join`, slicing) are
re-implemented over `String.data` so that all definitions evaluate inside
the kernel.
-/

namespace GeminiFlow

/-! ## Python string primitives -/

/-- Is `l₁` a prefix of `l₂` (executable)? -/
def listIsPrefixOf : List Char → List Char → Bool
  | [], _ => true
  | _ :: _, [] => false
  | a :: as, b :: bs => a == b && listIsPrefixOf as bs

/-- Is `l₁` an infix of `l₂` (executable)? -/
def listIsInfixOf (needle : List Char) : List Char → Bool
  | [] => needle.isEmpty
  | c :: rest => listIsPrefixOf needle (c :: rest) || listIsInfixOf needle rest

/-- Python `needle in hay` substring test. -/
def pyContains (hay needle : String) : Bool :=
  listIsInfixOf needle.data hay.data

/-- Python truthiness of a string: empty strings are falsy. -/
def pyTruthyStr (s : String) : Bool := !s.isEmpty

/-- Python truthiness of an optional string: `None` and `""` are falsy. -/
def pyTruthyOpt : Option String → Bool
  | none => false
  | some s => !s.isEmpty

/-- Rendering of an optional string by a Python f-string: `None` prints as
`"None"`. -/
def pyStrOfOpt : Option String → String
  | some s => s
  | none => "None"

/-- Rendering of an optional integer by a Python f-string. -/
def pyStrOfOptNat : Option Nat → String
  | some n => toString n
  | none => "None"

/-- Python `str.upper()` (ASCII case mapping, which is all the source uses). -/
def strUpper (s : String) : String := ⟨s.data.map Char.toUpper⟩

/-- Python `s[:n]` character slicing. -/
def pyTake (n : Nat) (s : String) : String := ⟨s.data.take n⟩

/-- Python whitespace predicate used by `str.strip()`. -/
def isPySpace (c : Char) : Bool :=
  c = ' ' || c = '\t' || c = '\n' || c = '\x0d' || c = '\x0b' || c = '\x0c'

/-- Python `str.strip()`. -/
def pyStrip (s : String) : String :=
  ⟨((s.data.dropWhile isPySpace).reverse.dropWhile isPySpace).reverse⟩

/-- Auxiliary for `pySplit`: accumulates the current field (reversed). -/
def pySplitAux (sep : Char) : List Char → List Char → List (List Char)
  | [], acc => [acc.reverse]
  | c :: rest, acc =>
    if c = sep then acc.reverse :: pySplitAux sep rest []
    else pySplitAux sep rest (c :: acc)

/-- Python `str.split(sep)` for a single-character separator; always returns a
non-empty list (`"".split('/') == ['']`). -/
def pySplit (sep : Char) (s : String) : List String :=
  (pySplitAux sep s.data []).map String.mk

/-- Python `s.split('/')[-1]`: the final path segment of a name.  `pySplit`
never returns `[]`, so the default of `getLastD` is never used. -/
def lastSegment (s : String) : String := (pySplit '/' s).getLastD s

/-- Python `s.split(':')[0]`: the part of an image name before the tag. -/
def beforeColon (s : String) : String := (pySplit ':' s).headD s

/-- Python `"sep".join(parts)`. -/
def pyJoin (sep : String) : List String → String
  | [] => ""
  | [x] => x
  | x :: y :: rest => x ++ sep ++ pyJoin sep (y :: rest)

/-! ## StepResult-style report dictionaries

Each adapter returns a loosely-typed dict in the source; optional keys become
`Option` fields (a key that is absent is `none`). -/

/-- Result dict of `sca_agent.get_latest_commit_sha`. -/
structure ScaReport where
  status : String
  message : Option String := none
  error_message : Option String := none
  commit_sha : Option String := none
deriving DecidableEq

/-- The `test_results` sub-dict of a BTA report. -/
structure TestResults where
  failure_summary : Option String := none
deriving DecidableEq

/-- One entry of `details.results.images` in a BTA report. -/
structure ImageInfo where
  name : Option String := none
  digest : Option String := none
deriving DecidableEq

/-- The `details.results` sub-dict of a BTA report. -/
structure BuildResults where
  images : List ImageInfo := []
deriving DecidableEq

/-- The `details` sub-dict of a BTA report. -/
structure BtaDetails where
  results : Option BuildResults := none
deriving DecidableEq

/-- Result dict of `bta_agent.trigger_build_and_monitor`. -/
structure BtaReport where
  status : String
  message : Option String := none
  error_message : Option String := none
  test_results : Option TestResults := none
  details : Option BtaDetails := none
  image_uri_commit : Option String := none
deriving DecidableEq

/-- One vulnerability entry of a scan result (fields carried in their
f-string-rendered form, which is all `secops_agent.py` uses them for). -/
structure Vulnerability where
  severity : String
  cvss_score : String := ""
  package : String := ""
  version : String := ""
  cve : String := ""
  description : String := ""
deriving DecidableEq

/-- Result dict of `secops_agent.get_vulnerability_scan_results`. -/
structure ScanResults where
  status : String
  message : Option String := none
  error_message : Option String := none
  vulnerabilities : List Vulnerability := []
deriving DecidableEq

/-- Result dict of `da_agent.deploy_to_cloud_run`. -/
structure DaReport where
  status : String
  message : Option String := none
  error_message : Option String := none
  service_url : Option String := none
deriving DecidableEq

/-- The `metrics` sub-dict built by `mda_agent.get_cloud_run_metrics`
(`request_count` and `error_count` are int64 sums of request counts, hence
naturals; the latency fields only ever appear interpolated into the report,
so they are carried as their rendered text, `none` printing as `"None"`). -/
structure MetricsData where
  request_count : Nat := 0
  error_count : Nat := 0
  p50_latency_ms : Option String := none
  p95_latency_ms : Option String := none
deriving DecidableEq

/-- Result dict of `mda_agent.get_cloud_run_metrics`. -/
structure MetricsReport where
  status : String
  message : Option String := none
  error_message : Option String := none
  metrics : Option MetricsData := none
  time_window_minutes : Option Nat := none
deriving DecidableEq

/-- One log entry dict built by `mda_agent.get_cloud_run_logs`
(`json_payload` carried as its `str(...)` rendering). -/
structure LogEntry where
  timestamp : Option String := none
  severity : Option String := none
  text_payload : Option String := none
  json_payload : Option String := none
deriving DecidableEq

/-- Result dict of `mda_agent.get_cloud_run_logs`. -/
structure LogsReport where
  status : String
  message : Option String := none
  error_message : Option String := none
  log_entries : List LogEntry := []
deriving DecidableEq

/-- Result dict of `rollback_agent.get_previous_stable_revision`. -/
structure StableRevReport where
  status : String
  previous_stable_revision_name : Option String := none
  message : Option String := none
  error_message : Option String := none
deriving DecidableEq

/-- A Cloud Run revision as consumed by `rollback_agent.py`: a name and a
creation time (modelled as an abstract timestamp). -/
structure Revision where
  name : String
  create_time : Nat
deriving DecidableEq

/-- One `run_v2.types.TrafficTarget(revision=..., percent=...)`. -/
structure TrafficTarget where
  revision : String
  percent : Nat
deriving DecidableEq

/-- Result dict of `rollback_agent.redirect_traffic_to_revision`. -/
structure RedirectReport where
  status : String
  message : Option String := none
  error_message : Option String := none
deriving DecidableEq

/-- Python `d.get('message', d.get('error_message'))` rendered by an
f-string (`None` prints as `"None"`). -/
def getMsg (message error_message : Option String) : String :=
  match message with
  | some m => m
  | none => pyStrOfOpt error_message

/-! ## mda_agent.py — Health Evaluator -/

/-- `metrics.get(field, 'N/A')` for the integer metric fields, applied to
`metrics_report.get("metrics", {})`. -/
def renderMetricNat (metrics : Option MetricsData) (f : MetricsData → Nat) : String :=
  match metrics with
  | some d => toString (f d)
  | none => "N/A"

/-- `metrics.get(field, 'N/A')` for the latency fields. -/
def renderMetricOpt (metrics : Option MetricsData) (f : MetricsData → Option String) : String :=
  match metrics with
  | some d => pyStrOfOpt (f d)
  | none => "N/A"

/-- One log line of the health report:
`f"  - [{entry.get('timestamp')}] [{entry.get('severity')}] {payload_str[:150]}"`. -/
def renderLogEntry (entry : LogEntry) : String :=
  let payload_str :=
    match entry.text_payload with
    | some t => t
    | none =>
      match entry.json_payload with
      | some j => j
      | none => "N/A"
  "  - [" ++ pyStrOfOpt entry.timestamp ++ "] [" ++ pyStrOfOpt entry.severity ++ "] "
    ++ pyTake 150 payload_str

/-- `mda_agent.generate_health_report`: formats metrics and logs into the raw
digest string (`"\n".join(report_parts)`). -/
def generate_health_report (service_id : String) (metrics_report : MetricsReport)
    (logs_report : LogsReport) : String :=
  let report_parts : List String := ["Health Report Data for Service: " ++ service_id ++ "\n"]
  let report_parts := report_parts ++
    (if metrics_report.status = "SUCCESS" then
      let metrics := metrics_report.metrics
      ["Metrics:",
       "  - Time Window: " ++ pyStrOfOptNat metrics_report.time_window_minutes ++ " minutes",
       "  - Request Count: " ++ renderMetricNat metrics (fun d => d.request_count),
       "  - Error Count (4xx+5xx): " ++ renderMetricNat metrics (fun d => d.error_count),
       "  - P50 Latency (ms, mean proxy): " ++ renderMetricOpt metrics (fun d => d.p50_latency_ms),
       "  - P95 Latency (ms, rough proxy): " ++ renderMetricOpt metrics (fun d => d.p95_latency_ms)]
    else
      ["Metrics: Error - " ++ (metrics_report.error_message.getD "Could not fetch metrics.")])
  let report_parts := report_parts ++
    (if logs_report.status = "SUCCESS" then
      ["\nRecent Logs:"] ++
      (if logs_report.log_entries.isEmpty then
        ["  - No recent log entries found."]
      else
        logs_report.log_entries.map renderLogEntry)
    else
      ["\nLogs: Error - " ++ (logs_report.error_message.getD "Could not fetch logs.")])
  pyJoin "\n" report_parts

/-- Parameter guard of `mda_agent.get_cloud_run_metrics`
(`if not all([project_id, service_id, location])`); past the guard the call
is an external snapshot, supplied as `impl`. -/
def get_cloud_run_metrics (impl : MetricsReport) (project_id : Option String)
    (service_id location : String) : MetricsReport :=
  if pyTruthyOpt project_id && pyTruthyStr service_id && pyTruthyStr location then impl
  else { status := "ERROR",
         error_message := some "Project ID, Service ID, and Location are required." }

/-- Parameter guard of `mda_agent.get_cloud_run_logs`; past the guard the
call is an external snapshot, supplied as `impl`. -/
def get_cloud_run_logs (impl : LogsReport) (project_id : Option String)
    (service_id location : String) : LogsReport :=
  if pyTruthyOpt project_id && pyTruthyStr service_id && pyTruthyStr location then impl
  else { status := "ERROR",
         error_message := some "Project ID, Service ID, and Location are required." }

/-! ## secops_agent.py — vulnerability summarization -/

/-- The fixed prompt preamble of `summarize_vulnerabilities_with_gemini`. -/
def secopsPromptPreamble : String :=
  "You are a DevSecOps analyst. Summarize the following container vulnerability scan results for a deployment decision. Be concise. List the number of vulnerabilities by severity (CRITICAL, HIGH, MEDIUM, LOW), and list details for any CRITICAL or HIGH severity issues. End with a brief recommendation.\n\n"

/-- One prompt line per vulnerability. -/
def vulnPromptLine (v : Vulnerability) : String :=
  "- Severity: " ++ v.severity ++ ", CVSS: " ++ v.cvss_score ++ ", Package: "
    ++ v.package ++ "@" ++ v.version ++ ", CVE: " ++ v.cve ++ "\n"

/-- `secops_agent.summarize_vulnerabilities_with_gemini`.  The Gemini call is
an oracle from the prompt to the response text; `none` models the call
raising, which the source catches and converts into the fallback message. -/
def summarize_vulnerabilities_with_gemini (gemini : String → Option String)
    (scan_results : ScanResults) : String :=
  if scan_results.status ≠ "SUCCESS" then
    "Could not generate summary because the vulnerability scan did not complete successfully."
  else if scan_results.vulnerabilities.isEmpty then
    "Security Scan Summary: No vulnerabilities were found. The image is considered clean."
  else
    let prompt := secopsPromptPreamble ++ "Vulnerability Data:\n"
      ++ String.join (scan_results.vulnerabilities.map vulnPromptLine)
    match gemini prompt with
    | some text => "Security Scan Summary:\n" ++ pyStrip text
    | none =>
      "Could not summarize vulnerabilities due to an error. Found "
        ++ toString scan_results.vulnerabilities.length ++ " vulnerabilities."

/-! ## rollback_agent.py -/

/-- Stable insertion into a list already sorted by creation time descending:
the element being inserted comes from earlier in the original list, so on
equal timestamps it stays in front, matching the stability of Python
`sorted(..., key=lambda r: r.create_time, reverse=True)`. -/
def insertByCreateTimeDesc (r : Revision) : List Revision → List Revision
  | [] => [r]
  | x :: xs =>
    if x.create_time ≤ r.create_time then r :: x :: xs
    else x :: insertByCreateTimeDesc r xs

/-- `sorted(revisions, key=lambda r: r.create_time, reverse=True)`: the
unique stable sort by creation time descending. -/
def sortByCreateTimeDesc : List Revision → List Revision
  | [] => []
  | r :: rest => insertByCreateTimeDesc r (sortByCreateTimeDesc rest)

/-- `rollback_agent.get_previous_stable_revision`.  `list_revisions` is the
Cloud Run listing oracle; `.error` carries the message of a raised
exception (`NotFound` or otherwise), which the source converts to an ERROR
report. -/
def get_previous_stable_revision (list_revisions : Except String (List Revision))
    (project_id : Option String) (location service_id : String) : StableRevReport :=
  if !(pyTruthyOpt project_id && pyTruthyStr location && pyTruthyStr service_id) then
    { status := "ERROR",
      error_message := some "Project ID, Location, and Service ID are required." }
  else
    match list_revisions with
    | .error e => { status := "ERROR", error_message := some e }
    | .ok revisions_list =>
      let revisions := sortByCreateTimeDesc revisions_list
      match revisions with
      | _ :: second :: _ =>
        { status := "SUCCESS",
          previous_stable_revision_name := some second.name,
          message := some ("Identified previous stable revision '"
            ++ lastSegment second.name ++ "'.") }
      | _ =>
        { status := "FAILURE",
          error_message := some "Fewer than two revisions exist; cannot determine a previous stable revision to roll back to." }

/-- `rollback_agent.redirect_traffic_to_revision`.  `update_service` is the
Cloud Run routing oracle, applied to the traffic table the source assigns
(`service.traffic = [traffic_target]`); the second component of the result
is that submitted traffic table (`none` when the parameter guard fired
before any routing update was specified). -/
def redirect_traffic_to_revision (update_service : List TrafficTarget → Except String Unit)
    (project_id : Option String) (location service_id : String)
    (revision_name : Option String) : RedirectReport × Option (List TrafficTarget) :=
  if !(pyTruthyOpt project_id && pyTruthyStr location && pyTruthyStr service_id
        && pyTruthyOpt revision_name) then
    ({ status := "ERROR",
       error_message := some "Project ID, Location, Service ID, and Revision Name are required." },
     none)
  else
    let revision_short_name := lastSegment (revision_name.getD "")
    let traffic : List TrafficTarget := [{ revision := revision_short_name, percent := 100 }]
    match update_service traffic with
    | .ok _ =>
      ({ status := "SUCCESS",
         message := some ("Successfully rolled back service '" ++ service_id
           ++ "' to direct all traffic to revision '" ++ revision_short_name ++ "'.") },
       some traffic)
    | .error e =>
      ({ status := "ERROR",
         error_message := some ("Rollback Agent: Error redirecting traffic: " ++ e) },
       some traffic)

/-! ## da_agent.py — deployment parameter guard -/

/-- `da_agent.deploy_to_cloud_run`.  The parameter guard
(`if not all([project_id, region, service_name, image_uri])`) is part of the
source; past it, the Cloud Run deployment is an external call supplied as
`impl`, applied to the image URI.  The missing-parameter list follows the
`locals()` insertion order of the source. -/
def deploy_to_cloud_run (impl : String → DaReport) (project_id : Option String)
    (region service_name : String) (image_uri : Option String) : DaReport :=
  if pyTruthyOpt project_id && pyTruthyStr region && pyTruthyStr service_name
      && pyTruthyOpt image_uri then
    impl (image_uri.getD "")
  else
    let missing_params : List String :=
      (if pyTruthyOpt project_id then [] else ["project_id"])
        ++ (if pyTruthyStr region then [] else ["region"])
        ++ (if pyTruthyStr service_name then [] else ["service_name"])
        ++ (if pyTruthyOpt image_uri then [] else ["image_uri"])
    { status := "ERROR",
      error_message := some ("Missing required parameters: " ++ pyJoin ", " missing_params) }

/-! ## agent.py — Master Orchestrator -/

/-- The module-level configuration of `agent.py` (`GCP_PROJECT_ID`,
`TARGET_GITHUB_REPO_FULL_NAME`, `TARGET_APP_TRIGGER_ID`,
`TARGET_APP_CLOUD_RUN_REGION`, `TARGET_APP_CLOUD_RUN_SERVICE_NAME`).
`GCP_PROJECT_ID` has no default, so it may be `None`. -/
structure Config where
  gcp_project_id : Option String
  target_github_repo_full_name : String
  target_app_trigger_id : String
  target_app_cloud_run_region : String
  target_app_cloud_run_service_name : String
deriving DecidableEq

/-- The external collaborators the orchestrator drives, each a pure oracle
from the arguments the orchestrator varies to the returned report. -/
structure Adapters where
  get_latest_commit_sha : String → String → ScaReport
  trigger_build_and_monitor : String → Option String → String → String → String → BtaReport
  get_vulnerability_scan_results : String → ScanResults
  gemini_generate_content : String → Option String
  deploy_impl : String → DaReport
  metrics_impl : MetricsReport
  logs_impl : LogsReport
  list_revisions : Except String (List Revision)
  update_service : List TrafficTarget → Except String Unit

/-- How often each adapter call site of one Smart-Deploy run was executed. -/
structure Trace where
  sca_calls : Nat := 0
  bta_calls : Nat := 0
  scan_calls : Nat := 0
  summarize_calls : Nat := 0
  deploy_calls : Nat := 0
  health_check_calls : Nat := 0
  rollback_calls : Nat := 0
  redirect_calls : Nat := 0
deriving DecidableEq

/-- Observable outcome of one Smart-Deploy run: the returned report string
and the adapter call counts. -/
structure SmartRun where
  report : String
  trace : Trace
deriving DecidableEq

/-- Outcome of `agent.execute_rollback_workflow` (the second definition in
`agent.py`, which shadows the first): the returned message and whether the
traffic-redirect step was reached. -/
structure RollbackRun where
  message : String
  redirect_calls : Nat
deriving DecidableEq

/-- `agent.execute_rollback_workflow` (lines 504-547; the second definition
shadows the earlier one at lines 66-100, so call sites resolve to it). -/
def execute_rollback_workflow (cfg : Config) (a : Adapters)
    (service_id location : String) : RollbackRun :=
  let stable_rev_report :=
    get_previous_stable_revision a.list_revisions cfg.gcp_project_id location service_id
  if stable_rev_report.status ≠ "SUCCESS" then
    { message := "‚ùå Rollback FAILED: Could not identify a previous stable revision. Reason: "
        ++ pyStrOfOpt stable_rev_report.error_message,
      redirect_calls := 0 }
  else
    let revision_to_restore := stable_rev_report.previous_stable_revision_name
    let revision_short_name :=
      match revision_to_restore with
      | some r => if r.isEmpty then "unknown" else lastSegment r
      | none => "unknown"
    let redirect_report :=
      (redirect_traffic_to_revision a.update_service cfg.gcp_project_id location
        service_id revision_to_restore).1
    if redirect_report.status = "SUCCESS" then
      { message := "‚úÖ SUCCESS: Service '" ++ service_id
          ++ "' has been rolled back to stable revision '" ++ revision_short_name
          ++ "'. Your service is now running the previous stable version and is accessible to users.",
        redirect_calls := 1 }
    else
      { message := "‚ùå Rollback FAILED: Attempted to redirect traffic, but failed. Reason: "
          ++ pyStrOfOpt redirect_report.error_message,
        redirect_calls := 1 }

/-- `agent.execute_health_check_workflow`: gathers metrics and logs snapshots
and formats the raw health digest. -/
def execute_health_check_workflow (cfg : Config) (a : Adapters)
    (service_id location : String) : String :=
  let metrics_report :=
    get_cloud_run_metrics a.metrics_impl cfg.gcp_project_id service_id location
  let logs_report :=
    get_cloud_run_logs a.logs_impl cfg.gcp_project_id service_id location
  generate_health_report service_id metrics_report logs_report

/-- The substring the post-deployment health gate of
`execute_smart_deploy_workflow` searches the raw digest for. -/
def healthGateMarker : String := "Error Count (4xx+5xx): 0"

/-- Lines 337-349 of `agent.py`: extraction of the scan target from the BTA
report.  Returns `some image_uri_with_digest` exactly when both the image
base name and the digest are truthy, i.e. when the scan branch runs. -/
def btaScanTarget (bta_report : BtaReport) : Option String :=
  let image_info : Option ImageInfo :=
    match bta_report.details with
    | some d =>
      match d.results with
      | some r => r.images.head?
      | none => none
    | none => none
  let image_digest := image_info.bind ImageInfo.digest
  let full_image_name_with_tag := image_info.bind ImageInfo.name
  let image_base_name : Option String :=
    match full_image_name_with_tag with
    | some n => if n.isEmpty then none else some (beforeColon n)
    | none => none
  if pyTruthyOpt image_base_name && pyTruthyOpt image_digest then
    some (image_base_name.getD "" ++ "@" ++ image_digest.getD "")
  else
    none

/-- Fixed report lines of `execute_smart_deploy_workflow` (the source file
stores these with mojibake characters; they are reproduced byte-exactly). -/
def rollbackLinePrefix : String := "   üîÑ Automatic Rollback: "

def continuityDeployLine : String := "üõ°Ô∏è **Service Continuity Maintained**: While the new deployment failed, your service has been automatically rolled back to the previous stable version and is still running."

def nextStepsLine : String := "üîç **Next Steps**: Review the deployment logs and fix any issues before attempting to deploy again."

def continuityHealthLine : String := "üõ°Ô∏è **Service Continuity Maintained**: Health check failed, but your service has been automatically rolled back to the previous stable version and is still running."

def deploymentUrlLinePrefix : String := "üåê **DEPLOYMENT URL: "

def liveLine : String := "‚úÖ Your application is now live and accessible at the above URL!"

/-- Steps 4-6 of `execute_smart_deploy_workflow` (lines 374-449): deploy,
post-deployment health gate with automatic rollback, final status lines. -/
def smartDeployFromDeploy (cfg : Config) (a : Adapters) (final_summary : List String)
    (bta_report : BtaReport) (t : Trace) : SmartRun :=
  let da_report := deploy_to_cloud_run a.deploy_impl cfg.gcp_project_id
    cfg.target_app_cloud_run_region cfg.target_app_cloud_run_service_name
    bta_report.image_uri_commit
  let t := { t with deploy_calls := t.deploy_calls + 1 }
  if da_report.status ≠ "SUCCESS" then
    let rollback := execute_rollback_workflow cfg a
      cfg.target_app_cloud_run_service_name cfg.target_app_cloud_run_region
    let deployment_failure_message := da_report.error_message.getD "Unknown deployment error"
    { report := pyJoin "\n" (final_summary ++
        ["4. Deployment: FAILED - " ++ deployment_failure_message,
         rollbackLinePrefix ++ rollback.message,
         "",
         continuityDeployLine,
         nextStepsLine]),
      trace := { t with
                 rollback_calls := t.rollback_calls + 1
                 redirect_calls := t.redirect_calls + rollback.redirect_calls } }
  else
    let deployment_url := da_report.service_url
    let final_summary := final_summary ++
      ["4. Deployment: " ++ getMsg da_report.message da_report.error_message]
    let health_check_raw_data := execute_health_check_workflow cfg a
      cfg.target_app_cloud_run_service_name cfg.target_app_cloud_run_region
    let t := { t with health_check_calls := t.health_check_calls + 1 }
    if pyContains health_check_raw_data healthGateMarker = false then
      let rollback := execute_rollback_workflow cfg a
        cfg.target_app_cloud_run_service_name cfg.target_app_cloud_run_region
      let final_summary := final_summary ++
        ["5. Post-Deployment Health Check: FAILED - Errors detected after deployment.",
         rollbackLinePrefix ++ rollback.message,
         "",
         continuityHealthLine]
      let t := { t with
                 rollback_calls := t.rollback_calls + 1
                 redirect_calls := t.redirect_calls + rollback.redirect_calls }
      { report := pyJoin "\n" (final_summary ++ ["6. Workflow Status: COMPLETED"]),
        trace := t }
    else
      let final_summary := final_summary ++
        ["5. Post-Deployment Health Check: PASSED - No immediate issues detected."]
      let final_summary := final_summary ++ ["6. Workflow Status: COMPLETED"]
      let final_summary :=
        if pyTruthyOpt deployment_url then
          final_summary ++
            ["",
             deploymentUrlLinePrefix ++ deployment_url.getD "" ++ "**",
             liveLine]
        else final_summary
      { report := pyJoin "\n" final_summary, trace := t }

/-- Step 3 of `execute_smart_deploy_workflow` (lines 334-372): the security
scan branch, halting on a scan error or on `"CRITICAL" in summary.upper()`,
or reporting a skip when no image URI with digest could be determined. -/
def smartDeployFromSecurity (cfg : Config) (a : Adapters) (final_summary : List String)
    (bta_report : BtaReport) (t : Trace) : SmartRun :=
  match btaScanTarget bta_report with
  | some image_uri_with_digest =>
    let scan_results := a.get_vulnerability_scan_results image_uri_with_digest
    let t := { t with scan_calls := t.scan_calls + 1 }
    if scan_results.status ≠ "SUCCESS" then
      let summary := "Security Scan Report: FAILED to get scan results. Reason: "
        ++ pyStrOfOpt scan_results.error_message
      { report := pyJoin "\n" (final_summary ++
          ["3. " ++ summary, "Deployment HALTED due to security scan error."]),
        trace := t }
    else
      let summary := summarize_vulnerabilities_with_gemini a.gemini_generate_content scan_results
      let t := { t with summarize_calls := t.summarize_calls + 1 }
      let final_summary := final_summary ++ ["3. " ++ summary]
      if pyContains (strUpper summary) "CRITICAL" then
        { report := pyJoin "\n" (final_summary ++
            ["Deployment HALTED due to CRITICAL vulnerabilities found."]),
          trace := t }
      else
        smartDeployFromDeploy cfg a final_summary bta_report t
  | none =>
    let final_summary := final_summary ++
      ["3. Security Scan Report: SKIPPED - Could not determine image URI with digest from BTA report."]
    smartDeployFromDeploy cfg a final_summary bta_report t

/-- `agent.execute_smart_deploy_workflow` (lines 294-449).  The
`target_repository_name` argument is received but, like the source, never
fed to any step: the source-lookup call uses the environment-configured
`TARGET_GITHUB_REPO_FULL_NAME`.  The `Except.error` case models the
unhandled `TypeError` raised by `commit_sha[:8]` when the SCA report is
SUCCESS without a `commit_sha` key. -/
def execute_smart_deploy_workflow (cfg : Config) (a : Adapters)
    (target_repository_name target_branch_name : String) : Except String SmartRun :=
  let sca_report := a.get_latest_commit_sha cfg.target_github_repo_full_name target_branch_name
  let final_summary := ["1. SCA Report: " ++ getMsg sca_report.message sca_report.error_message]
  let t : Trace := { sca_calls := 1 }
  if sca_report.status ≠ "SUCCESS" then
    .ok { report := pyJoin "\n" final_summary, trace := t }
  else
    match sca_report.commit_sha with
    | none => .error "TypeError: 'NoneType' object is not subscriptable"
    | some commit_sha =>
      let bta_report := a.trigger_build_and_monitor cfg.target_app_trigger_id
        cfg.gcp_project_id (lastSegment cfg.target_github_repo_full_name)
        target_branch_name commit_sha
      let t := { t with bta_calls := 1 }
      let final_summary := final_summary ++
        ["2. BTA Report: " ++ getMsg bta_report.message bta_report.error_message]
      let test_summary :=
        (bta_report.test_results.bind TestResults.failure_summary).getD "Tests not processed."
      let final_summary := final_summary ++ ["   Test Status: " ++ test_summary]
      if bta_report.status ≠ "SUCCESS" then
        .ok { report := pyJoin "\n" final_summary, trace := t }
      else
        .ok (smartDeployFromSecurity cfg a final_summary bta_report t)

/-! ## Infrastructure lemmas -/

theorem string_data_append (a b : String) : (a ++ b).data = a.data ++ b.data := rfl

theorem listIsPrefixOf_iff (l₁ l₂ : List Char) :
    listIsPrefixOf l₁ l₂ = true ↔ l₁ <+: l₂ := by
  induction l₁ generalizing l₂ with
  | nil => simp [listIsPrefixOf]
  | cons a as ih =>
    cases l₂ with
    | nil => simp [listIsPrefixOf]
    | cons b bs =>
      simp [listIsPrefixOf, List.cons_prefix_cons, ih]

theorem listIsInfixOf_iff (needle hay : List Char) :
    listIsInfixOf needle hay = true ↔ needle <:+: hay := by
  induction hay with
  | nil => simp [listIsInfixOf, List.isEmpty_iff]
  | cons c rest ih =>
    simp [listIsInfixOf, List.infix_cons_iff, listIsPrefixOf_iff, ih]

theorem pyContains_iff {hay needle : String} :
    pyContains hay needle = true ↔ needle.data <:+: hay.data := by
  simp [pyContains, listIsInfixOf_iff]

/-- Every member of `parts` occurs as an infix of `pyJoin sep parts`. -/
theorem data_infix_pyJoin {p : String} {parts : List String} (sep : String)
    (h : p ∈ parts) : p.data <:+: (pyJoin sep parts).data := by
  induction parts with
  | nil => cases h
  | cons x rest ih =>
    cases rest with
    | nil =>
      rcases List.mem_singleton.mp h with rfl
      exact List.infix_refl _
    | cons y ys =>
      rcases List.mem_cons.mp h with hx | hrest
      · subst hx
        show p.data <:+: (p ++ sep ++ pyJoin sep (y :: ys)).data
        rw [string_data_append, string_data_append]
        exact ((List.prefix_append p.data sep.data).trans
          (List.prefix_append (p.data ++ sep.data) _)).isInfix
      · have hx := ih hrest
        show p.data <:+: (x ++ sep ++ pyJoin sep (y :: ys)).data
        rw [string_data_append, string_data_append]
        exact hx.trans (List.suffix_append _ _).isInfix

/-- A string whose data is an infix of a member of `parts` is found by the
Python `in` test on `pyJoin sep parts`. -/
theorem pyContains_pyJoin_of_mem {p needle : String} {parts : List String} (sep : String)
    (hmem : p ∈ parts) (hinf : needle.data <:+: p.data) :
    pyContains (pyJoin sep parts) needle = true :=
  pyContains_iff.mpr (hinf.trans (data_infix_pyJoin sep hmem))

/-- A needle that is the second half of one member of `parts` is found by the
Python `in` test on `pyJoin sep parts`. -/
theorem pyContains_pyJoin_of_mem_append {pre needle : String} {parts : List String}
    (sep : String) (hmem : pre ++ needle ∈ parts) :
    pyContains (pyJoin sep parts) needle = true :=
  pyContains_pyJoin_of_mem sep hmem
    (by rw [string_data_append]; exact (List.suffix_append _ _).isInfix)

theorem string_append_assoc (a b c : String) : a ++ b ++ c = a ++ (b ++ c) := by
  show String.mk ((a.data ++ b.data) ++ c.data) = String.mk (a.data ++ (b.data ++ c.data))
  rw [List.append_assoc]

theorem pyJoin_append (sep : String) (l1 l2 : List String) (h1 : l1 ≠ []) (h2 : l2 ≠ []) :
    pyJoin sep (l1 ++ l2) = pyJoin sep l1 ++ sep ++ pyJoin sep l2 := by
  induction l1 with
  | nil => cases h1 rfl
  | cons x rest ih =>
    cases rest with
    | nil =>
      cases l2 with
      | nil => cases h2 rfl
      | cons y ys => simp [pyJoin]
    | cons x2 rest2 =>
      have hne : x2 :: rest2 ≠ [] := by simp
      have : (x2 :: rest2) ++ l2 = x2 :: (rest2 ++ l2) := rfl
      calc pyJoin sep ((x :: x2 :: rest2) ++ l2)
          = x ++ sep ++ pyJoin sep ((x2 :: rest2) ++ l2) := by
            cases rest2 <;> simp [pyJoin]
        _ = x ++ sep ++ (pyJoin sep (x2 :: rest2) ++ sep ++ pyJoin sep l2) := by
            rw [ih hne]
        _ = pyJoin sep (x :: x2 :: rest2) ++ sep ++ pyJoin sep l2 := by
            simp only [pyJoin, string_append_assoc]

theorem length_insertByCreateTimeDesc (r : Revision) (l : List Revision) :
    (insertByCreateTimeDesc r l).length = l.length + 1 := by
  induction l with
  | nil => rfl
  | cons x xs ih =>
    simp only [insertByCreateTimeDesc]
    by_cases h : x.create_time ≤ r.create_time <;> simp [h, ih]

theorem length_sortByCreateTimeDesc (l : List Revision) :
    (sortByCreateTimeDesc l).length = l.length := by
  induction l with
  | nil => rfl
  | cons x xs ih => simp [sortByCreateTimeDesc, length_insertByCreateTimeDesc, ih]

/-! ## Named intermediate values of one Smart-Deploy run -/

/-- The SCA report of a run (the source-lookup call always uses the
configured repository, never the caller-supplied argument). -/
def scaOf (cfg : Config) (a : Adapters) (branch : String) : ScaReport :=
  a.get_latest_commit_sha cfg.target_github_repo_full_name branch

/-- The BTA report of a run with commit `c`. -/
def btaOf (cfg : Config) (a : Adapters) (branch c : String) : BtaReport :=
  a.trigger_build_and_monitor cfg.target_app_trigger_id cfg.gcp_project_id
    (lastSegment cfg.target_github_repo_full_name) branch c

/-- The deploy report of a run whose BTA report is `bta_report`. -/
def daOf (cfg : Config) (a : Adapters) (bta_report : BtaReport) : DaReport :=
  deploy_to_cloud_run a.deploy_impl cfg.gcp_project_id
    cfg.target_app_cloud_run_region cfg.target_app_cloud_run_service_name
    bta_report.image_uri_commit

/-- The effective metrics report the health digest is generated from. -/
def metricsOf (cfg : Config) (a : Adapters) : MetricsReport :=
  get_cloud_run_metrics a.metrics_impl cfg.gcp_project_id
    cfg.target_app_cloud_run_service_name cfg.target_app_cloud_run_region

/-- The raw health digest the post-deployment gate searches. -/
def healthDigestOf (cfg : Config) (a : Adapters) : String :=
  execute_health_check_workflow cfg a
    cfg.target_app_cloud_run_service_name cfg.target_app_cloud_run_region

/-- The security-scan branch lets the pipeline advance to Deploy: whenever
the scan target is determined, the scan succeeds and the summarization text,
uppercased, does not contain `"CRITICAL"`. -/
def scanAdvances (a : Adapters) (bta_report : BtaReport) : Prop :=
  ∀ uri, btaScanTarget bta_report = some uri →
    (a.get_vulnerability_scan_results uri).status = "SUCCESS" ∧
    pyContains (strUpper (summarize_vulnerabilities_with_gemini
      a.gemini_generate_content (a.get_vulnerability_scan_results uri))) "CRITICAL" = false

/-- The summary line of the SCA step. -/
def scaLine (cfg : Config) (a : Adapters) (branch : String) : String :=
  "1. SCA Report: " ++ getMsg (scaOf cfg a branch).message (scaOf cfg a branch).error_message

/-- The first three report lines of a run that passed source lookup. -/
def summaryThroughBta (cfg : Config) (a : Adapters) (branch c : String) : List String :=
  [scaLine cfg a branch,
   "2. BTA Report: " ++ getMsg (btaOf cfg a branch c).message (btaOf cfg a branch c).error_message,
   "   Test Status: " ++
     (((btaOf cfg a branch c).test_results.bind TestResults.failure_summary).getD
       "Tests not processed.")]

/-! ## Path lemmas -/

theorem exec_sca_fail (cfg : Config) (a : Adapters) (repo branch : String)
    (h : (scaOf cfg a branch).status ≠ "SUCCESS") :
    execute_smart_deploy_workflow cfg a repo branch =
      .ok { report := scaLine cfg a branch, trace := { sca_calls := 1 } } := by
  simp only [execute_smart_deploy_workflow, scaOf, scaLine] at *
  rw [if_pos h]
  rfl

theorem exec_reach_security (cfg : Config) (a : Adapters) (repo branch c : String)
    (h1 : (scaOf cfg a branch).status = "SUCCESS")
    (h2 : (scaOf cfg a branch).commit_sha = some c)
    (h3 : (btaOf cfg a branch c).status = "SUCCESS") :
    execute_smart_deploy_workflow cfg a repo branch =
      .ok (smartDeployFromSecurity cfg a (summaryThroughBta cfg a branch c)
        (btaOf cfg a branch c) { sca_calls := 1, bta_calls := 1 }) := by
  simp only [execute_smart_deploy_workflow, scaOf, btaOf, summaryThroughBta, scaLine] at *
  rw [if_neg (by simp [h1]), h2]
  simp only [h3, ne_eq, not_true_eq_false, if_false]
  rfl

/-- The rollback run the orchestrator performs on the configured target
service when a deploy or the health gate fails. -/
def rollbackOf (cfg : Config) (a : Adapters) : RollbackRun :=
  execute_rollback_workflow cfg a
    cfg.target_app_cloud_run_service_name cfg.target_app_cloud_run_region

theorem fromSecurity_skip (cfg : Config) (a : Adapters) (fs : List String)
    (bta_report : BtaReport) (t : Trace) (h : btaScanTarget bta_report = none) :
    smartDeployFromSecurity cfg a fs bta_report t =
      smartDeployFromDeploy cfg a
        (fs ++ ["3. Security Scan Report: SKIPPED - Could not determine image URI with digest from BTA report."])
        bta_report t := by
  simp [smartDeployFromSecurity, h]

theorem fromSecurity_scan_error (cfg : Config) (a : Adapters) (fs : List String)
    (bta_report : BtaReport) (t : Trace) (uri : String)
    (h : btaScanTarget bta_report = some uri)
    (hs : (a.get_vulnerability_scan_results uri).status ≠ "SUCCESS") :
    smartDeployFromSecurity cfg a fs bta_report t =
      { report := pyJoin "\n" (fs ++
          ["3. " ++ ("Security Scan Report: FAILED to get scan results. Reason: "
             ++ pyStrOfOpt (a.get_vulnerability_scan_results uri).error_message),
           "Deployment HALTED due to security scan error."]),
        trace := { t with scan_calls := t.scan_calls + 1 } } := by
  simp [smartDeployFromSecurity, h, hs]

theorem fromSecurity_critical (cfg : Config) (a : Adapters) (fs : List String)
    (bta_report : BtaReport) (t : Trace) (uri : String)
    (h : btaScanTarget bta_report = some uri)
    (hs : (a.get_vulnerability_scan_results uri).status = "SUCCESS")
    (hc : pyContains (strUpper (summarize_vulnerabilities_with_gemini
      a.gemini_generate_content (a.get_vulnerability_scan_results uri))) "CRITICAL" = true) :
    smartDeployFromSecurity cfg a fs bta_report t =
      { report := pyJoin "\n" (fs ++
          ["3. " ++ summarize_vulnerabilities_with_gemini a.gemini_generate_content
             (a.get_vulnerability_scan_results uri),
           "Deployment HALTED due to CRITICAL vulnerabilities found."]),
        trace := { t with
                   scan_calls := t.scan_calls + 1
                   summarize_calls := t.summarize_calls + 1 } } := by
  simp [smartDeployFromSecurity, h, hs, hc]

theorem fromSecurity_clean (cfg : Config) (a : Adapters) (fs : List String)
    (bta_report : BtaReport) (t : Trace) (uri : String)
    (h : btaScanTarget bta_report = some uri)
    (hs : (a.get_vulnerability_scan_results uri).status = "SUCCESS")
    (hc : pyContains (strUpper (summarize_vulnerabilities_with_gemini
      a.gemini_generate_content (a.get_vulnerability_scan_results uri))) "CRITICAL" = false) :
    smartDeployFromSecurity cfg a fs bta_report t =
      smartDeployFromDeploy cfg a
        (fs ++ ["3. " ++ summarize_vulnerabilities_with_gemini a.gemini_generate_content
          (a.get_vulnerability_scan_results uri)])
        bta_report
        { t with
          scan_calls := t.scan_calls + 1
          summarize_calls := t.summarize_calls + 1 } := by
  simp [smartDeployFromSecurity, h, hs, hc]

theorem fromDeploy_fail (cfg : Config) (a : Adapters) (fs : List String)
    (bta_report : BtaReport) (t : Trace)
    (h : (daOf cfg a bta_report).status ≠ "SUCCESS") :
    smartDeployFromDeploy cfg a fs bta_report t =
      { report := pyJoin "\n" (fs ++
          ["4. Deployment: FAILED - "
             ++ (daOf cfg a bta_report).error_message.getD "Unknown deployment error",
           rollbackLinePrefix ++ (rollbackOf cfg a).message,
           "",
           continuityDeployLine,
           nextStepsLine]),
        trace := { t with
                   deploy_calls := t.deploy_calls + 1
                   rollback_calls := t.rollback_calls + 1
                   redirect_calls := t.redirect_calls + (rollbackOf cfg a).redirect_calls } } := by
  simp only [smartDeployFromDeploy, daOf, rollbackOf] at *
  rw [if_pos h]

theorem fromDeploy_ok_unhealthy (cfg : Config) (a : Adapters) (fs : List String)
    (bta_report : BtaReport) (t : Trace)
    (h : (daOf cfg a bta_report).status = "SUCCESS")
    (hg : pyContains (healthDigestOf cfg a) healthGateMarker = false) :
    smartDeployFromDeploy cfg a fs bta_report t =
      { report := pyJoin "\n" (fs ++
          ["4. Deployment: "
             ++ getMsg (daOf cfg a bta_report).message (daOf cfg a bta_report).error_message,
           "5. Post-Deployment Health Check: FAILED - Errors detected after deployment.",
           rollbackLinePrefix ++ (rollbackOf cfg a).message,
           "",
           continuityHealthLine,
           "6. Workflow Status: COMPLETED"]),
        trace := { t with
                   deploy_calls := t.deploy_calls + 1
                   health_check_calls := t.health_check_calls + 1
                   rollback_calls := t.rollback_calls + 1
                   redirect_calls := t.redirect_calls + (rollbackOf cfg a).redirect_calls } } := by
  simp only [smartDeployFromDeploy, daOf, rollbackOf, healthDigestOf] at *
  rw [if_neg (by simp [h]), hg]
  simp

theorem fromDeploy_ok_healthy (cfg : Config) (a : Adapters) (fs : List String)
    (bta_report : BtaReport) (t : Trace)
    (h : (daOf cfg a bta_report).status = "SUCCESS")
    (hg : pyContains (healthDigestOf cfg a) healthGateMarker = true) :
    smartDeployFromDeploy cfg a fs bta_report t =
      { report := pyJoin "\n" ((fs ++
          ["4. Deployment: "
             ++ getMsg (daOf cfg a bta_report).message (daOf cfg a bta_report).error_message,
           "5. Post-Deployment Health Check: PASSED - No immediate issues detected.",
           "6. Workflow Status: COMPLETED"]) ++
          (if pyTruthyOpt (daOf cfg a bta_report).service_url then
            ["",
             deploymentUrlLinePrefix ++ (daOf cfg a bta_report).service_url.getD "" ++ "**",
             liveLine]
          else [])),
        trace := { t with
                   deploy_calls := t.deploy_calls + 1
                   health_check_calls := t.health_check_calls + 1 } } := by
  simp only [smartDeployFromDeploy, daOf, healthDigestOf] at *
  rw [if_neg (by simp [h]), hg]
  by_cases hu : pyTruthyOpt (deploy_to_cloud_run a.deploy_impl cfg.gcp_project_id
      cfg.target_app_cloud_run_region cfg.target_app_cloud_run_service_name
      bta_report.image_uri_commit).service_url = true
  · simp [hu]
  · simp [hu]


/-! ## Concrete fixtures used by witnesses and counterexamples -/

/-- A fully-populated configuration (mirrors the defaults of `agent.py`). -/
def wCfg : Config :=
  { gcp_project_id := some "proj"
    target_github_repo_full_name := "komfysach/gemini-flow-hello-world"
    target_app_trigger_id := "deploy-hello-world-app"
    target_app_cloud_run_region := "us-central1"
    target_app_cloud_run_service_name := "geminiflow-hello-world-svc" }

/-- Two revisions of the target service, newest first by creation time. -/
def wRevisions : List Revision :=
  [{ name := "projects/p/locations/l/services/svc/revisions/rev-002", create_time := 20 },
   { name := "projects/p/locations/l/services/svc/revisions/rev-001", create_time := 10 }]

/-- A single-revision history (insufficient for rollback). -/
def wSingleRevision : List Revision :=
  [{ name := "projects/p/locations/l/services/svc/revisions/rev-001", create_time := 10 }]

/-- The all-green adapter set of the repository's own happy-path test
(`tests/test_agent.py::test_smart_deploy_workflow_success_path`). -/
def baseAdapters : Adapters :=
  { get_latest_commit_sha := fun _ _ =>
      { status := "SUCCESS", commit_sha := some "abcdef123", message := some "SCA success" }
    trigger_build_and_monitor := fun _ _ _ _ _ =>
      { status := "SUCCESS"
        message := some "BTA success"
        image_uri_commit := some "gcr.io/proj/img:abcdef123"
        details := some { results := some { images :=
          [{ name := some "gcr.io/proj/img:abcdef123", digest := some "sha256:digest123" }] } }
        test_results := some { failure_summary := some "All tests passed." } }
    get_vulnerability_scan_results := fun _ => { status := "SUCCESS", vulnerabilities := [] }
    gemini_generate_content := fun _ => none
    deploy_impl := fun _ =>
      { status := "SUCCESS", message := some "DA success", service_url := some "http://service.url" }
    metrics_impl :=
      { status := "SUCCESS"
        metrics := some { request_count := 10, error_count := 0 }
        time_window_minutes := some 5 }
    logs_impl := { status := "SUCCESS", log_entries := [] }
    list_revisions := .ok wRevisions
    update_service := fun _ => .ok () }

/-- Adapters whose source lookup fails. -/
def scaFailAdapters : Adapters :=
  { baseAdapters with get_latest_commit_sha := fun _ _ =>
      { status := "ERROR", error_message := some "boom" } }

/-! ## C9 -/

/-- C9: two Smart-Deploy invocations differing only in
`target_repository_name` are indistinguishable: the orchestrator reads the
repository from `Config` (`TARGET_GITHUB_REPO_FULL_NAME`), never from the
caller-supplied argument, so the whole run (report and adapter calls) is
identical. -/
theorem target_repository_name_noninterference (cfg : Config) (a : Adapters)
    (repo1 repo2 branch : String) :
    execute_smart_deploy_workflow cfg a repo1 branch =
      execute_smart_deploy_workflow cfg a repo2 branch := rfl

/-! ## C7 -/

/-- C7: a run whose SourceLookup step returns a non-Success outcome returns
the single accumulated SCA report line immediately, and the trace records
zero Build, SecurityScan, Deploy and HealthCheck calls. -/
theorem source_lookup_failure_halts_immediately (cfg : Config) (a : Adapters)
    (repo branch : String)
    (h : (scaOf cfg a branch).status ≠ "SUCCESS") :
    execute_smart_deploy_workflow cfg a repo branch =
      .ok { report := scaLine cfg a branch, trace := { sca_calls := 1 } } ∧
    ∀ run, execute_smart_deploy_workflow cfg a repo branch = .ok run →
      run.trace.bta_calls = 0 ∧ run.trace.scan_calls = 0 ∧
      run.trace.deploy_calls = 0 ∧ run.trace.health_check_calls = 0 ∧
      run.trace.rollback_calls = 0 := by
  have he := exec_sca_fail cfg a repo branch h
  refine ⟨he, fun run hr => ?_⟩
  rw [he] at hr
  cases hr
  exact ⟨rfl, rfl, rfl, rfl, rfl⟩

theorem source_lookup_failure_halts_immediately_witness :
    execute_smart_deploy_workflow wCfg scaFailAdapters "whatever" "main" =
      .ok { report := "1. SCA Report: boom", trace := { sca_calls := 1 } } := by
  have h := (source_lookup_failure_halts_immediately wCfg scaFailAdapters "whatever" "main"
    (by decide)).1
  rw [h]
  rfl

/-! ## C5 -/

/-- C5: for every truthy revision name (fully qualified paths included),
`redirect_traffic_to_revision` submits a routing update that replaces the
entire traffic table with the single target
`[{revision := final path segment, percent := 100}]`. -/
theorem redirect_uses_final_path_segment
    (update_service : List TrafficTarget → Except String Unit)
    (project_id : Option String) (location service_id revision_name : String)
    (hp : pyTruthyOpt project_id = true) (hl : pyTruthyStr location = true)
    (hs : pyTruthyStr service_id = true) (hr : pyTruthyStr revision_name = true) :
    (redirect_traffic_to_revision update_service project_id location service_id
      (some revision_name)).2 =
      some [{ revision := lastSegment revision_name, percent := 100 }] := by
  have hr2 : pyTruthyOpt (some revision_name) = true := hr
  simp only [redirect_traffic_to_revision, hp, hl, hs, hr2, Bool.and_self, Bool.and_true,
    Bool.not_true, Bool.false_eq_true, if_false, Option.getD_some]
  cases update_service [{ revision := lastSegment revision_name, percent := 100 }] <;> rfl

theorem redirect_uses_final_path_segment_witness :
    (redirect_traffic_to_revision (fun _ => .ok ()) (some "proj") "us-central1" "svc"
      (some "projects/p/locations/l/services/svc/revisions/rev-002")).2 =
      some [{ revision := "rev-002", percent := 100 }] := by
  have h := redirect_uses_final_path_segment (fun _ => .ok ()) (some "proj") "us-central1"
    "svc" "projects/p/locations/l/services/svc/revisions/rev-002"
    (by decide) (by decide) (by decide) (by decide)
  rw [h]
  rfl

/-! ## C4 -/

/-- C4: with a truthy configuration and a successful revision listing,
`get_previous_stable_revision` returns a FAILURE report carrying the
insufficient-history message whenever fewer than two revisions exist, in
which case the rollback workflow never reaches the traffic-redirect step;
with at least two revisions it returns the revision at index 1 of the list
sorted by creation time descending. -/
theorem rollback_insufficient_history (cfg : Config) (a : Adapters)
    (service_id location : String) (revs : List Revision)
    (hp : pyTruthyOpt cfg.gcp_project_id = true) (hl : pyTruthyStr location = true)
    (hs : pyTruthyStr service_id = true)
    (hrev : a.list_revisions = .ok revs) :
    (revs.length < 2 →
      get_previous_stable_revision a.list_revisions cfg.gcp_project_id location service_id =
        { status := "FAILURE",
          error_message := some "Fewer than two revisions exist; cannot determine a previous stable revision to roll back to." } ∧
      (execute_rollback_workflow cfg a service_id location).redirect_calls = 0 ∧
      (execute_rollback_workflow cfg a service_id location).message =
        "‚ùå Rollback FAILED: Could not identify a previous stable revision. Reason: Fewer than two revisions exist; cannot determine a previous stable revision to roll back to.") ∧
    (2 ≤ revs.length →
      (get_previous_stable_revision a.list_revisions cfg.gcp_project_id location
        service_id).status = "SUCCESS" ∧
      (get_previous_stable_revision a.list_revisions cfg.gcp_project_id location
        service_id).previous_stable_revision_name =
        ((sortByCreateTimeDesc revs).get? 1).map Revision.name) := by
  have hguard : (pyTruthyOpt cfg.gcp_project_id && pyTruthyStr location
      && pyTruthyStr service_id) = true := by
    simp [hp, hl, hs]
  constructor
  · intro hlt
    have hsortlen : (sortByCreateTimeDesc revs).length < 2 := by
      rwa [length_sortByCreateTimeDesc]
    have hfail : get_previous_stable_revision a.list_revisions cfg.gcp_project_id location
        service_id =
        { status := "FAILURE",
          error_message := some "Fewer than two revisions exist; cannot determine a previous stable revision to roll back to." } := by
      simp only [get_previous_stable_revision, hguard, Bool.not_true, Bool.false_eq_true,
        if_false, hrev]
      cases hsort : sortByCreateTimeDesc revs with
      | nil => rfl
      | cons x xs =>
        cases xs with
        | nil => rfl
        | cons y ys =>
          rw [hsort] at hsortlen
          simp at hsortlen
          omega
    refine ⟨hfail, ?_, ?_⟩
    · simp only [execute_rollback_workflow, hfail]
      rfl
    · simp only [execute_rollback_workflow, hfail]
      rfl
  · intro hge
    have hsortlen : 2 ≤ (sortByCreateTimeDesc revs).length := by
      rwa [length_sortByCreateTimeDesc]
    simp only [get_previous_stable_revision, hguard, Bool.not_true, Bool.false_eq_true,
      if_false, hrev]
    cases hsort : sortByCreateTimeDesc revs with
    | nil => rw [hsort] at hsortlen; simp at hsortlen
    | cons x xs =>
      cases xs with
      | nil => rw [hsort] at hsortlen; simp at hsortlen
      | cons y ys => exact ⟨rfl, rfl⟩

theorem rollback_insufficient_history_witness :
    (get_previous_stable_revision (Except.ok wSingleRevision)
      (some "proj") "us-central1" "svc" =
      { status := "FAILURE",
        error_message := some "Fewer than two revisions exist; cannot determine a previous stable revision to roll back to." }) ∧
    (execute_rollback_workflow wCfg
      { baseAdapters with list_revisions := Except.ok wSingleRevision }
      "svc" "us-central1").redirect_calls = 0 ∧
    (get_previous_stable_revision (Except.ok wRevisions) (some "proj") "us-central1"
      "svc").previous_stable_revision_name =
      some "projects/p/locations/l/services/svc/revisions/rev-001" := by
  have h1 := rollback_insufficient_history wCfg
    { baseAdapters with list_revisions := Except.ok wSingleRevision }
    "svc" "us-central1" wSingleRevision
    (by decide) (by decide) (by decide) rfl
  have h2 := rollback_insufficient_history wCfg baseAdapters "svc" "us-central1" wRevisions
    (by decide) (by decide) (by decide) rfl
  obtain ⟨ha, hb, -⟩ := h1.1 (by decide)
  refine ⟨ha, hb, ?_⟩
  exact ((h2.2 (by decide)).2).trans (by decide)


/-! ## Reaching the Deploy step -/

/-- Under a successful source lookup (with commit id), successful build and
a security branch that advances, the run is exactly the Deploy stage applied
to some accumulated summary, with no Deploy/HealthCheck/Rollback calls yet. -/
theorem exec_reach_deploy (cfg : Config) (a : Adapters) (repo branch c : String)
    (h1 : (scaOf cfg a branch).status = "SUCCESS")
    (h2 : (scaOf cfg a branch).commit_sha = some c)
    (h3 : (btaOf cfg a branch c).status = "SUCCESS")
    (h4 : scanAdvances a (btaOf cfg a branch c)) :
    ∃ fs t, execute_smart_deploy_workflow cfg a repo branch =
        .ok (smartDeployFromDeploy cfg a fs (btaOf cfg a branch c) t) ∧
      t.deploy_calls = 0 ∧ t.health_check_calls = 0 ∧
      t.rollback_calls = 0 ∧ t.redirect_calls = 0 := by
  have hsec := exec_reach_security cfg a repo branch c h1 h2 h3
  cases hb : btaScanTarget (btaOf cfg a branch c) with
  | none =>
    refine ⟨summaryThroughBta cfg a branch c ++
        ["3. Security Scan Report: SKIPPED - Could not determine image URI with digest from BTA report."],
      { sca_calls := 1, bta_calls := 1 }, ?_, rfl, rfl, rfl, rfl⟩
    rw [hsec, fromSecurity_skip _ _ _ _ _ hb]
  | some uri =>
    obtain ⟨hscan, hcrit⟩ := h4 uri hb
    refine ⟨summaryThroughBta cfg a branch c ++
        ["3. " ++ summarize_vulnerabilities_with_gemini a.gemini_generate_content
          (a.get_vulnerability_scan_results uri)],
      { sca_calls := 1, bta_calls := 1, scan_calls := 1, summarize_calls := 1 },
      ?_, rfl, rfl, rfl, rfl⟩
    rw [hsec, fromSecurity_clean _ _ _ _ _ _ hb hscan hcrit]

/-- Whatever happens from the Deploy stage on, the deploy adapter is called
exactly once there. -/
theorem fromDeploy_deploy_calls (cfg : Config) (a : Adapters) (fs : List String)
    (bta_report : BtaReport) (t : Trace) :
    (smartDeployFromDeploy cfg a fs bta_report t).trace.deploy_calls = t.deploy_calls + 1 := by
  simp only [smartDeployFromDeploy]
  split
  · rfl
  · split <;> rfl

/-- A scan adapter that reports success with an empty findings list always
lets the security branch advance. -/
theorem scanAdvances_of_clean (a : Adapters) (bta_report : BtaReport)
    (h : ∀ uri, a.get_vulnerability_scan_results uri =
      { status := "SUCCESS", vulnerabilities := [] }) :
    scanAdvances a bta_report := by
  intro uri hu
  rw [h uri]
  refine ⟨rfl, ?_⟩
  have hs : summarize_vulnerabilities_with_gemini a.gemini_generate_content
      { status := "SUCCESS", vulnerabilities := [] } =
      "Security Scan Summary: No vulnerabilities were found. The image is considered clean." := by
    simp [summarize_vulnerabilities_with_gemini]
  rw [hs]
  decide

/-- Extract the run of a workflow result (used to state closed witnesses
without binders). -/
def runOf (e : Except String SmartRun) : SmartRun :=
  e.toOption.getD { report := "", trace := {} }

/-! ## C3 -/

/-- C3: whenever the Deploy step of a run that reached it returns a
non-Success outcome, the Rollback Workflow is invoked exactly once and the
returned report contains both the deploy failure message and the rollback
outcome message. -/
theorem deploy_failure_triggers_single_rollback_and_reports (cfg : Config) (a : Adapters)
    (repo branch c : String)
    (h1 : (scaOf cfg a branch).status = "SUCCESS")
    (h2 : (scaOf cfg a branch).commit_sha = some c)
    (h3 : (btaOf cfg a branch c).status = "SUCCESS")
    (h4 : scanAdvances a (btaOf cfg a branch c))
    (h5 : (daOf cfg a (btaOf cfg a branch c)).status ≠ "SUCCESS") :
    ∀ run, execute_smart_deploy_workflow cfg a repo branch = .ok run →
      run.trace.rollback_calls = 1 ∧
      pyContains run.report
        ((daOf cfg a (btaOf cfg a branch c)).error_message.getD
          "Unknown deployment error") = true ∧
      pyContains run.report (rollbackOf cfg a).message = true := by
  intro run hrun
  obtain ⟨fs, t, heq, hd, hh, hrb, hrd⟩ := exec_reach_deploy cfg a repo branch c h1 h2 h3 h4
  rw [heq, fromDeploy_fail cfg a fs _ t h5] at hrun
  cases hrun
  refine ⟨?_, ?_, ?_⟩
  · show t.rollback_calls + 1 = 1
    rw [hrb]
  · exact @pyContains_pyJoin_of_mem_append "4. Deployment: FAILED - " _ _ "\n"
      (List.mem_append_right _ (by simp))
  · exact @pyContains_pyJoin_of_mem_append rollbackLinePrefix _ _ "\n"
      (List.mem_append_right _ (by simp))

/-- Adapters identical to the happy-path test fixture except that Deploy
fails with a quota error. -/
def deployFailAdapters : Adapters :=
  { baseAdapters with deploy_impl := fun _ =>
      { status := "FAILURE", error_message := some "quota exceeded" } }

theorem deploy_failure_triggers_single_rollback_and_reports_witness :
    (runOf (execute_smart_deploy_workflow wCfg deployFailAdapters "r" "main")).trace.rollback_calls = 1 ∧
    pyContains (runOf (execute_smart_deploy_workflow wCfg deployFailAdapters "r" "main")).report
      "quota exceeded" = true ∧
    pyContains (runOf (execute_smart_deploy_workflow wCfg deployFailAdapters "r" "main")).report
      (rollbackOf wCfg deployFailAdapters).message = true := by
  have h := deploy_failure_triggers_single_rollback_and_reports wCfg deployFailAdapters
    "r" "main" "abcdef123" rfl rfl rfl
    (scanAdvances_of_clean _ _ (fun _ => rfl)) (by decide)
    (runOf (execute_smart_deploy_workflow wCfg deployFailAdapters "r" "main")) rfl
  exact h

/-! ## C10 -/

/-- C10: a successful scan with an empty findings list is summarized as the
fixed clean-image sentence independently of the language model (the Gemini
oracle is never consulted), that sentence uppercased contains no
`"CRITICAL"`, and a run whose security step sees such a scan advances to
Deploy (the deploy adapter is invoked). -/
theorem empty_findings_clean_summary_no_llm (cfg : Config) (a : Adapters)
    (repo branch c uri : String)
    (hss : (a.get_vulnerability_scan_results uri).status = "SUCCESS")
    (hempty : (a.get_vulnerability_scan_results uri).vulnerabilities = []) :
    (∀ gemini, summarize_vulnerabilities_with_gemini gemini
        (a.get_vulnerability_scan_results uri) =
      "Security Scan Summary: No vulnerabilities were found. The image is considered clean.") ∧
    pyContains (strUpper
      "Security Scan Summary: No vulnerabilities were found. The image is considered clean.")
      "CRITICAL" = false ∧
    ((scaOf cfg a branch).status = "SUCCESS" → (scaOf cfg a branch).commit_sha = some c →
      (btaOf cfg a branch c).status = "SUCCESS" →
      btaScanTarget (btaOf cfg a branch c) = some uri →
      ∀ run, execute_smart_deploy_workflow cfg a repo branch = .ok run →
        run.trace.deploy_calls = 1) := by
  have hclean : ∀ gemini, summarize_vulnerabilities_with_gemini gemini
      (a.get_vulnerability_scan_results uri) =
      "Security Scan Summary: No vulnerabilities were found. The image is considered clean." := by
    intro gemini
    simp [summarize_vulnerabilities_with_gemini, hss, hempty]
  refine ⟨hclean, by decide, ?_⟩
  intro h1 h2 h3 hb run hrun
  have hcrit : pyContains (strUpper (summarize_vulnerabilities_with_gemini
      a.gemini_generate_content (a.get_vulnerability_scan_results uri))) "CRITICAL" = false := by
    rw [hclean]
    decide
  rw [exec_reach_security cfg a repo branch c h1 h2 h3,
    fromSecurity_clean _ _ _ _ _ _ hb hss hcrit] at hrun
  cases hrun
  rw [fromDeploy_deploy_calls]

theorem empty_findings_clean_summary_no_llm_witness :
    summarize_vulnerabilities_with_gemini baseAdapters.gemini_generate_content
      (baseAdapters.get_vulnerability_scan_results "gcr.io/proj/img@sha256:digest123") =
      "Security Scan Summary: No vulnerabilities were found. The image is considered clean." ∧
    (runOf (execute_smart_deploy_workflow wCfg baseAdapters "r" "main")).trace.deploy_calls = 1 := by
  have h := empty_findings_clean_summary_no_llm wCfg baseAdapters "r" "main" "abcdef123"
    "gcr.io/proj/img@sha256:digest123" rfl rfl
  exact ⟨h.1 baseAdapters.gemini_generate_content,
    h.2.2 rfl rfl rfl rfl (runOf (execute_smart_deploy_workflow wCfg baseAdapters "r" "main")) rfl⟩


/-- A needle that is itself a member of `parts` is found by the Python `in`
test on `pyJoin sep parts`. -/
theorem pyContains_pyJoin_of_mem_self {needle : String} {parts : List String}
    (sep : String) (hmem : needle ∈ parts) :
    pyContains (pyJoin sep parts) needle = true :=
  pyContains_pyJoin_of_mem sep hmem (List.infix_refl _)

/-! ## C2 -/

/-- C2 (amended): after a successful security scan the pipeline halts before
Deploy if and only if the summarization output, uppercased, contains
`"CRITICAL"`: when it does, the run ends with the distinct
halted-for-security line and the deploy adapter is never invoked; when it
does not (for instance because the Gemini call raised and the fallback text
was used), the pipeline advances and Deploy is invoked — regardless of the
severities actually present in the findings. -/
theorem securityGate_halts_iff_summary_mentions_critical (cfg : Config) (a : Adapters)
    (repo branch c uri : String)
    (h1 : (scaOf cfg a branch).status = "SUCCESS")
    (h2 : (scaOf cfg a branch).commit_sha = some c)
    (h3 : (btaOf cfg a branch c).status = "SUCCESS")
    (hb : btaScanTarget (btaOf cfg a branch c) = some uri)
    (hss : (a.get_vulnerability_scan_results uri).status = "SUCCESS") :
    ∀ run, execute_smart_deploy_workflow cfg a repo branch = .ok run →
      (pyContains (strUpper (summarize_vulnerabilities_with_gemini
          a.gemini_generate_content (a.get_vulnerability_scan_results uri))) "CRITICAL" = true →
        run.trace.deploy_calls = 0 ∧
        pyContains run.report "Deployment HALTED due to CRITICAL vulnerabilities found." = true) ∧
      (pyContains (strUpper (summarize_vulnerabilities_with_gemini
          a.gemini_generate_content (a.get_vulnerability_scan_results uri))) "CRITICAL" = false →
        run.trace.deploy_calls = 1) := by
  intro run hrun
  constructor
  · intro hc
    rw [exec_reach_security cfg a repo branch c h1 h2 h3,
      fromSecurity_critical _ _ _ _ _ _ hb hss hc] at hrun
    cases hrun
    exact ⟨rfl, pyContains_pyJoin_of_mem_self "\n" (List.mem_append_right _ (by simp))⟩
  · intro hc
    rw [exec_reach_security cfg a repo branch c h1 h2 h3,
      fromSecurity_clean _ _ _ _ _ _ hb hss hc] at hrun
    cases hrun
    rw [fromDeploy_deploy_calls]

/-- Adapters whose scan finds one CRITICAL-severity vulnerability and whose
Gemini summarization call raises (so the fallback text, which never mentions
CRITICAL, is used). -/
def c2Adapters : Adapters :=
  { baseAdapters with
    get_vulnerability_scan_results := fun _ =>
      { status := "SUCCESS"
        vulnerabilities :=
          [{ severity := "CRITICAL"
             cvss_score := "9.8"
             package := "libfoo"
             version := "1.0.0"
             cve := "CVE-2024-0001"
             description := "CVE-2024-0001 remote code execution" }] }
    gemini_generate_content := fun _ => none }

/-- Adapters as above but with a Gemini response that names the severity. -/
def c2CriticalTextAdapters : Adapters :=
  { c2Adapters with gemini_generate_content := fun _ => some "Found 1 CRITICAL vulnerability (CVE-2024-0001). Recommendation: do not deploy." }

theorem securityGate_halts_iff_summary_mentions_critical_witness :
    (runOf (execute_smart_deploy_workflow wCfg c2CriticalTextAdapters "r" "main")).trace.deploy_calls = 0 ∧
    pyContains (runOf (execute_smart_deploy_workflow wCfg c2CriticalTextAdapters "r" "main")).report
      "Deployment HALTED due to CRITICAL vulnerabilities found." = true ∧
    (runOf (execute_smart_deploy_workflow wCfg c2Adapters "r" "main")).trace.deploy_calls = 1 := by
  have hA := securityGate_halts_iff_summary_mentions_critical wCfg c2CriticalTextAdapters
    "r" "main" "abcdef123" "gcr.io/proj/img@sha256:digest123" rfl rfl rfl (by decide) rfl
    (runOf (execute_smart_deploy_workflow wCfg c2CriticalTextAdapters "r" "main")) rfl
  have hB := securityGate_halts_iff_summary_mentions_critical wCfg c2Adapters
    "r" "main" "abcdef123" "gcr.io/proj/img@sha256:digest123" rfl rfl rfl (by decide) rfl
    (runOf (execute_smart_deploy_workflow wCfg c2Adapters "r" "main")) rfl
  obtain ⟨hA1, hA2⟩ := hA.1 rfl
  exact ⟨hA1, hA2, hB.2 rfl⟩

/-- C2 counterexample: a run whose successful scan contains a
CRITICAL-severity finding, yet the security scan is executed, no halt
occurs and the Deploy adapter is invoked, because the Gemini summarization
raised and the fallback summary text contains no `"CRITICAL"`. -/
theorem securityGate_critical_finding_no_halt_cex :
    (c2Adapters.get_vulnerability_scan_results
      "gcr.io/proj/img@sha256:digest123").vulnerabilities.any
      (fun v => v.severity == "CRITICAL") = true ∧
    (runOf (execute_smart_deploy_workflow wCfg c2Adapters "r" "main")).trace.scan_calls = 1 ∧
    (runOf (execute_smart_deploy_workflow wCfg c2Adapters "r" "main")).trace.deploy_calls = 1 ∧
    pyContains (runOf (execute_smart_deploy_workflow wCfg c2Adapters "r" "main")).report
      "Deployment HALTED" = false := by
  refine ⟨rfl, ?_, ?_, ?_⟩ <;> rfl

/-! ## C6 -/

/-- C6 (amended): a Success outcome with a missing payload does not produce
a Warning-and-halt.  A SUCCESS source lookup without a commit id makes the
workflow raise an unhandled `TypeError`; a SUCCESS build without a
resolvable image reports the security scan as SKIPPED and then invokes the
Deploy adapter with the missing image URI, whose parameter guard fails and
triggers the automatic rollback path. -/
theorem missing_payload_not_warning_halted (cfg : Config) (a : Adapters)
    (repo branch c : String) :
    ((scaOf cfg a branch).status = "SUCCESS" → (scaOf cfg a branch).commit_sha = none →
      execute_smart_deploy_workflow cfg a repo branch =
        .error "TypeError: 'NoneType' object is not subscriptable") ∧
    ((scaOf cfg a branch).status = "SUCCESS" → (scaOf cfg a branch).commit_sha = some c →
      (btaOf cfg a branch c).status = "SUCCESS" →
      btaScanTarget (btaOf cfg a branch c) = none →
      (btaOf cfg a branch c).image_uri_commit = none →
      ∀ run, execute_smart_deploy_workflow cfg a repo branch = .ok run →
        pyContains run.report
          "3. Security Scan Report: SKIPPED - Could not determine image URI with digest from BTA report." = true ∧
        run.trace.deploy_calls = 1 ∧
        run.trace.rollback_calls = 1) := by
  constructor
  · intro h1 hnone
    simp only [execute_smart_deploy_workflow, scaOf] at *
    rw [if_neg (by simp [h1]), hnone]
  · intro h1 h2 h3 hb himg run hrun
    have hda : (daOf cfg a (btaOf cfg a branch c)).status ≠ "SUCCESS" := by
      simp [daOf, deploy_to_cloud_run, himg, pyTruthyOpt]
    rw [exec_reach_security cfg a repo branch c h1 h2 h3,
      fromSecurity_skip _ _ _ _ _ hb,
      fromDeploy_fail cfg a _ _ _ hda] at hrun
    cases hrun
    refine ⟨?_, rfl, rfl⟩
    exact pyContains_pyJoin_of_mem_self "\n"
      (List.mem_append_left _ (List.mem_append_right _ (by simp)))

/-- Adapters whose build succeeds but carries neither image details nor an
`image_uri_commit`, over a single-revision history. -/
def c6Adapters : Adapters :=
  { baseAdapters with
    trigger_build_and_monitor := fun _ _ _ _ _ =>
      { status := "SUCCESS", message := some "BTA success" }
    list_revisions := Except.ok wSingleRevision }

theorem missing_payload_not_warning_halted_witness :
    pyContains (runOf (execute_smart_deploy_workflow wCfg c6Adapters "r" "main")).report
      "3. Security Scan Report: SKIPPED - Could not determine image URI with digest from BTA report." = true ∧
    (runOf (execute_smart_deploy_workflow wCfg c6Adapters "r" "main")).trace.deploy_calls = 1 ∧
    (runOf (execute_smart_deploy_workflow wCfg c6Adapters "r" "main")).trace.rollback_calls = 1 := by
  have h := (missing_payload_not_warning_halted wCfg c6Adapters "r" "main" "abcdef123").2
    rfl rfl rfl rfl rfl
    (runOf (execute_smart_deploy_workflow wCfg c6Adapters "r" "main")) rfl
  exact h

/-- C6 counterexample: with a SUCCESS build lacking a resolvable image
identity, the orchestrator neither reports a Warning nor halts: the report
contains no "Warning", the Deploy adapter is invoked with the missing input,
and the run continues into the automatic rollback path. -/
theorem missing_payload_warning_halt_cex :
    (runOf (execute_smart_deploy_workflow wCfg c6Adapters "r" "main")).trace.deploy_calls = 1 ∧
    pyContains (runOf (execute_smart_deploy_workflow wCfg c6Adapters "r" "main")).report
      "Warning" = false ∧
    (runOf (execute_smart_deploy_workflow wCfg c6Adapters "r" "main")).trace.rollback_calls = 1 := by
  refine ⟨?_, ?_, ?_⟩ <;> rfl


/-! ## C1 -/

/-- The effective logs report the health digest is generated from. -/
def logsOf (cfg : Config) (a : Adapters) : LogsReport :=
  get_cloud_run_logs a.logs_impl cfg.gcp_project_id
    cfg.target_app_cloud_run_service_name cfg.target_app_cloud_run_region

theorem healthDigestOf_eq (cfg : Config) (a : Adapters) :
    healthDigestOf cfg a = generate_health_report cfg.target_app_cloud_run_service_name
      (metricsOf cfg a) (logsOf cfg a) := rfl

/-- A digest generated from a successful metrics report whose error count is
zero always contains the health-gate marker (it is the second half of the
error-count line). -/
theorem pyContains_digest_marker_of_zero (service_id : String) (m : MetricsReport)
    (l : LogsReport) (d : MetricsData)
    (hm : m.status = "SUCCESS") (hd : m.metrics = some d) (he : d.error_count = 0) :
    pyContains (generate_health_report service_id m l) healthGateMarker = true := by
  have hline : "  - Error Count (4xx+5xx): " ++
      renderMetricNat m.metrics (fun x => x.error_count) = "  - " ++ healthGateMarker := by
    rw [hd]
    show "  - Error Count (4xx+5xx): " ++ toString d.error_count = _
    rw [he]
    rfl
  simp only [generate_health_report, hm]
  refine @pyContains_pyJoin_of_mem_append "  - " _ _ "\n" ?_
  rw [← hline]
  simp

/-- C1 (amended): for a run that reaches the post-deployment health check,
rollback is decided by a substring test on the digest: rollback is invoked
exactly when the digest does not contain `"Error Count (4xx+5xx): 0"`.  A
digest whose metrics report succeeded with error count zero always contains
the marker, so a zero error count never triggers rollback; a positive error
count triggers rollback unless the marker text happens to occur elsewhere in
the digest (e.g. inside a log line). -/
theorem healthGate_rollback_iff_digest_marker (cfg : Config) (a : Adapters)
    (repo branch c : String)
    (h1 : (scaOf cfg a branch).status = "SUCCESS")
    (h2 : (scaOf cfg a branch).commit_sha = some c)
    (h3 : (btaOf cfg a branch c).status = "SUCCESS")
    (h4 : scanAdvances a (btaOf cfg a branch c))
    (h5 : (daOf cfg a (btaOf cfg a branch c)).status = "SUCCESS") :
    ∀ run, execute_smart_deploy_workflow cfg a repo branch = .ok run →
      run.trace.health_check_calls = 1 ∧
      (pyContains (healthDigestOf cfg a) healthGateMarker = false →
        run.trace.rollback_calls = 1) ∧
      (pyContains (healthDigestOf cfg a) healthGateMarker = true →
        run.trace.rollback_calls = 0) ∧
      (∀ d, (metricsOf cfg a).status = "SUCCESS" → (metricsOf cfg a).metrics = some d →
        d.error_count = 0 → run.trace.rollback_calls = 0) := by
  intro run hrun
  obtain ⟨fs, t, heq, hd, hh, hrb, hrd⟩ := exec_reach_deploy cfg a repo branch c h1 h2 h3 h4
  rw [heq] at hrun
  cases hg : pyContains (healthDigestOf cfg a) healthGateMarker with
  | false =>
    rw [fromDeploy_ok_unhealthy cfg a fs _ t h5 hg] at hrun
    cases hrun
    refine ⟨?_, fun _ => ?_, fun hcontra => ?_, fun d hms hmd he => ?_⟩
    · show t.health_check_calls + 1 = 1
      rw [hh]
    · show t.rollback_calls + 1 = 1
      rw [hrb]
    · cases hcontra
    · have hmarker := pyContains_digest_marker_of_zero
        cfg.target_app_cloud_run_service_name (metricsOf cfg a) (logsOf cfg a) d hms hmd he
      rw [healthDigestOf_eq] at hg
      rw [hmarker] at hg
      cases hg
  | true =>
    rw [fromDeploy_ok_healthy cfg a fs _ t h5 hg] at hrun
    cases hrun
    refine ⟨?_, fun hcontra => ?_, fun _ => ?_, fun d hms hmd he => ?_⟩
    · show t.health_check_calls + 1 = 1
      rw [hh]
    · cases hcontra
    · exact hrb
    · exact hrb

/-- Adapters reporting three post-deployment errors and no log entries. -/
def unhealthyAdapters : Adapters :=
  { baseAdapters with metrics_impl :=
      { status := "SUCCESS"
        metrics := some { request_count := 5, error_count := 3 }
        time_window_minutes := some 5 } }

theorem healthGate_rollback_iff_digest_marker_witness :
    (runOf (execute_smart_deploy_workflow wCfg baseAdapters "r" "main")).trace.health_check_calls = 1 ∧
    (runOf (execute_smart_deploy_workflow wCfg baseAdapters "r" "main")).trace.rollback_calls = 0 ∧
    (runOf (execute_smart_deploy_workflow wCfg unhealthyAdapters "r" "main")).trace.rollback_calls = 1 := by
  have hz := healthGate_rollback_iff_digest_marker wCfg baseAdapters "r" "main" "abcdef123"
    rfl rfl rfl (scanAdvances_of_clean _ _ (fun _ => rfl)) rfl
    (runOf (execute_smart_deploy_workflow wCfg baseAdapters "r" "main")) rfl
  have hu := healthGate_rollback_iff_digest_marker wCfg unhealthyAdapters "r" "main" "abcdef123"
    rfl rfl rfl (scanAdvances_of_clean _ _ (fun _ => rfl)) rfl
    (runOf (execute_smart_deploy_workflow wCfg unhealthyAdapters "r" "main")) rfl
  exact ⟨hz.1, hz.2.2.2 { request_count := 10, error_count := 0 } rfl rfl rfl,
    hu.2.1 rfl⟩

/-- Adapters reporting seven post-deployment errors while a log line happens
to contain the text the health gate searches for. -/
def c1Adapters : Adapters :=
  { baseAdapters with
    metrics_impl :=
      { status := "SUCCESS"
        metrics := some { request_count := 3, error_count := 7 }
        time_window_minutes := some 5 }
    logs_impl :=
      { status := "SUCCESS"
        log_entries :=
          [{ timestamp := some "2025-01-01T00:00:00+00:00"
             severity := some "INFO"
             text_payload := some "canary control group healthy: Error Count (4xx+5xx): 0 in window" }] } }

/-- C1 counterexample: a run that reaches the health check with a digest
reporting a combined error count of 7 (> 0), yet rollback is never invoked,
because a log line inside the digest contains the searched marker text. -/
theorem healthGate_error_count_rollback_cex :
    ((metricsOf wCfg c1Adapters).metrics.map (fun d => d.error_count)) = some 7 ∧
    (runOf (execute_smart_deploy_workflow wCfg c1Adapters "r" "main")).trace.health_check_calls = 1 ∧
    (runOf (execute_smart_deploy_workflow wCfg c1Adapters "r" "main")).trace.rollback_calls = 0 := by
  refine ⟨rfl, rfl, rfl⟩

/-! ## C8 -/

/-- C8 (amended): reports do not uniformly end with a halted/rolled-back
marker.  A run halted at source lookup returns exactly the single SCA line
(the failing step's own message, no marker).  A fully successful run with a
truthy service URL never rolls back and its report is the join of the
accumulated lines followed exactly by the final block
`6. Workflow Status: COMPLETED`, a blank line, the deployment-URL line and
the fixed live-confirmation line. -/
theorem report_endings_by_outcome (cfg : Config) (a : Adapters) (repo branch c : String) :
    ((scaOf cfg a branch).status ≠ "SUCCESS" →
      ∀ run, execute_smart_deploy_workflow cfg a repo branch = .ok run →
        run.report = scaLine cfg a branch) ∧
    ((scaOf cfg a branch).status = "SUCCESS" → (scaOf cfg a branch).commit_sha = some c →
      (btaOf cfg a branch c).status = "SUCCESS" → scanAdvances a (btaOf cfg a branch c) →
      (daOf cfg a (btaOf cfg a branch c)).status = "SUCCESS" →
      pyContains (healthDigestOf cfg a) healthGateMarker = true →
      pyTruthyOpt (daOf cfg a (btaOf cfg a branch c)).service_url = true →
      ∀ run, execute_smart_deploy_workflow cfg a repo branch = .ok run →
        run.trace.rollback_calls = 0 ∧
        ∃ pre, run.report = pyJoin "\n" (pre ++
          ["6. Workflow Status: COMPLETED", "",
           deploymentUrlLinePrefix ++
             (daOf cfg a (btaOf cfg a branch c)).service_url.getD "" ++ "**",
           liveLine])) := by
  constructor
  · intro h run hrun
    rw [exec_sca_fail cfg a repo branch h] at hrun
    cases hrun
    rfl
  · intro h1 h2 h3 h4 h5 hg hurl run hrun
    obtain ⟨fs, t, heq, hd, hh, hrb, hrd⟩ := exec_reach_deploy cfg a repo branch c h1 h2 h3 h4
    rw [heq, fromDeploy_ok_healthy cfg a fs _ t h5 hg] at hrun
    cases hrun
    refine ⟨hrb, ⟨fs ++
      ["4. Deployment: " ++ getMsg (daOf cfg a (btaOf cfg a branch c)).message
         (daOf cfg a (btaOf cfg a branch c)).error_message,
       "5. Post-Deployment Health Check: PASSED - No immediate issues detected."], ?_⟩⟩
    show pyJoin "\n" _ = _
    rw [hurl]
    exact congrArg (pyJoin "\n") (by simp)

theorem report_endings_by_outcome_witness :
    (runOf (execute_smart_deploy_workflow wCfg scaFailAdapters "r" "main")).report =
      "1. SCA Report: boom" ∧
    (runOf (execute_smart_deploy_workflow wCfg baseAdapters "r" "main")).trace.rollback_calls = 0 := by
  have hA := (report_endings_by_outcome wCfg scaFailAdapters "r" "main" "x").1 (by decide)
    (runOf (execute_smart_deploy_workflow wCfg scaFailAdapters "r" "main")) rfl
  have hB := (report_endings_by_outcome wCfg baseAdapters "r" "main" "abcdef123").2
    rfl rfl rfl (scanAdvances_of_clean _ _ (fun _ => rfl)) rfl rfl rfl
    (runOf (execute_smart_deploy_workflow wCfg baseAdapters "r" "main")) rfl
  exact ⟨hA.trans rfl, hB.1⟩

/-- C8 counterexample: the report of a run halted at source lookup is the
single SCA line: it contains no halted or rolled-back marker of any casing
and does not end with a service URL. -/
theorem halted_report_marker_cex :
    (runOf (execute_smart_deploy_workflow wCfg scaFailAdapters "r" "main")).report =
      "1. SCA Report: boom" ∧
    pyContains (strUpper (runOf (execute_smart_deploy_workflow wCfg scaFailAdapters
      "r" "main")).report) "HALTED" = false ∧
    pyContains (strUpper (runOf (execute_smart_deploy_workflow wCfg scaFailAdapters
      "r" "main")).report) "ROLLED" = false := by
  refine ⟨rfl, rfl, rfl⟩

end GeminiFlow
